import Mathlib

/-!
Verification model of the NotMyAppYet news-ingestion core.

The definitions below are a shallow embedding of the TypeScript sources:
  - src/utils/textUtils.ts        (HTML-entity decoding, tweet cleanup)
  - types/news.ts                 (canonical data model)
  - src/store/newsStore.ts        (addNews: dedup + enhance + sort + truncate)
  - src/services/apiService.ts    (format adapters, keyword matcher,
                                   WebSocket close/reconnect handling)
  - notificationService           (keyword match, notification dedup)

Modelling conventions:
  - JS strings are Lean `String`; per-character scans work on `String.data`.
  - JS `undefined`/`null` are `Option.none`; JS truthiness of a string is
    "non-empty", of a number "non-zero".
  - JS numbers holding Unix millisecond timestamps are `Int`; the reconnect
    backoff delays (products of 1000 and powers of 1.5, all exactly
    representable as binary doubles) are modelled exactly in `ℚ`.
  - `Date.now()` and `Math.random()`-derived fresh identifiers are passed in
    as explicit `now`/`rand` arguments.
  - The regex character class `\s` is modelled on the whitespace characters
    relevant to the feeds (ASCII whitespace plus NBSP).
-/

namespace NotMyApp

/-! ## JS string primitives -/

/-- The whitespace characters matched by the JS regex class `\s`
(ASCII whitespace and the no-break space). -/
def isJsWs (c : Char) : Bool :=
  c = ' ' || c = '\t' || c = '\n' || c = '\r' || c = '\x0b' || c = '\x0c' || c = '\xa0'

/-- JS `String.prototype.trim` on a character list. -/
def trimBoth (s : List Char) : List Char :=
  ((s.dropWhile isJsWs).reverse.dropWhile isJsWs).reverse

/-- Strip whitespace from the right end only. -/
def trimRight (s : List Char) : List Char :=
  (s.reverse.dropWhile isJsWs).reverse

/-- JS `String.prototype.trim`. -/
def jsTrim (s : String) : String := String.mk (trimBoth s.data)

/-- JS `toLowerCase` (the feeds are ASCII, where it agrees with `Char.toLower`). -/
def jsToLower (s : String) : String := String.mk (s.data.map Char.toLower)

/-- JS `toUpperCase` (ASCII). -/
def jsToUpper (s : String) : String := String.mk (s.data.map Char.toUpper)

/-- Substring test: does `pat` occur contiguously inside `s`? -/
def listIsInfix (pat : List Char) : List Char → Bool
  | [] => pat.isEmpty
  | c :: rest => pat.isPrefixOf (c :: rest) || listIsInfix pat rest

/-- JS `String.prototype.includes`. -/
def strIncludes (s pat : String) : Bool := listIsInfix pat.data s.data

/-- JS `String.prototype.indexOf` for a pattern, as an index into the character
list (`none` models the JS result `-1`). -/
def firstIdxOf (pat : List Char) : List Char → Option Nat
  | [] => if pat.isEmpty then some 0 else none
  | c :: rest =>
    if pat.isPrefixOf (c :: rest) then some 0
    else (firstIdxOf pat rest).map (· + 1)

/-- `String.prototype.indexOf` on `String`s. -/
def strIndexOf (s pat : String) : Option Nat := firstIdxOf pat.data s.data

/-- Fuel-driven core of `replaceAll` (global `String.prototype.replace` with a
literal pattern): replaces every occurrence of `pat`, left to right,
non-overlapping.  The fuel is the length of the scanned list, which each step
consumes at least one character of. -/
def replaceAllGo (pat repl : List Char) : Nat → List Char → List Char
  | _, [] => []
  | 0, s => s
  | fuel + 1, c :: rest =>
    if !pat.isEmpty && pat.isPrefixOf (c :: rest) then
      repl ++ replaceAllGo pat repl fuel (rest.drop (pat.length - 1))
    else
      c :: replaceAllGo pat repl fuel rest

/-- JS global replace of a literal pattern. -/
def replaceAll (pat repl s : List Char) : List Char :=
  replaceAllGo pat repl s.length s

/-- JS non-global `String.prototype.replace` with a literal pattern: replaces
only the first occurrence. -/
def replaceFirst (pat repl : List Char) : List Char → List Char
  | [] => []
  | c :: rest =>
    if !pat.isEmpty && pat.isPrefixOf (c :: rest) then
      repl ++ (c :: rest).drop pat.length
    else
      c :: replaceFirst pat repl rest

/-- `replaceFirst` on `String`s, as used for `.replace('@', '')`. -/
def strReplaceFirst (s pat repl : String) : String :=
  String.mk (replaceFirst pat.data repl.data s.data)

/-- After a matched literal, take the greedy `\S+` tail: requires at least one
non-whitespace character and consumes the whole run, returning the remainder.
Models the `\S+` suffix of the URL-stripping regexes. -/
def nonWsTail (rest : List Char) : Option (List Char) :=
  match rest with
  | [] => none
  | c :: _ => if isJsWs c then none else some (rest.dropWhile (fun x => !isJsWs x))

/-- Matcher for `/https?:\/\/\S+/` at the current position. -/
def httpUrlMatch (s : List Char) : Option (List Char) :=
  if "https://".data.isPrefixOf s then nonWsTail (s.drop 8)
  else if "http://".data.isPrefixOf s then nonWsTail (s.drop 7)
  else none

/-- Matcher for a literal host prefix followed by `\S+`
(`/t\.co\/\S+/`, `/x\.com\/\S+/`, `/twitter\.com\/\S+/`). -/
def hostUrlMatch (lit : List Char) (s : List Char) : Option (List Char) :=
  if lit.isPrefixOf s then nonWsTail (s.drop lit.length) else none

/-- Fuel-driven global regex deletion: at each position, if the matcher fires,
drop the match and continue after it, else keep the character. -/
def stripAllGo (m : List Char → Option (List Char)) : Nat → List Char → List Char
  | _, [] => []
  | 0, s => s
  | fuel + 1, c :: rest =>
    match m (c :: rest) with
    | some rest2 => stripAllGo m fuel rest2
    | none => c :: stripAllGo m fuel rest

/-- Global regex deletion (replace with the empty string). -/
def stripAll (m : List Char → Option (List Char)) (s : List Char) : List Char :=
  stripAllGo m s.length s

/-- `replace(/\s{2,}/g, ' ')`: every maximal run of two or more whitespace
characters becomes a single space; a lone whitespace character is kept. -/
def collapseWsGo : Nat → List Char → List Char
  | _, [] => []
  | 0, s => s
  | fuel + 1, c :: rest =>
    if isJsWs c then
      match rest with
      | [] => [c]
      | d :: _ =>
        if isJsWs d then ' ' :: collapseWsGo fuel (rest.dropWhile isJsWs)
        else c :: collapseWsGo fuel rest
    else c :: collapseWsGo fuel rest

def collapseWs (s : List Char) : List Char := collapseWsGo s.length s

/-- `replace(/^RT:\s*/i, '')`: strip a leading case-insensitive `RT:` with any
following whitespace. -/
def stripLeadingRt (s : List Char) : List Char :=
  match s with
  | r :: t :: colon :: rest =>
    if (r = 'R' || r = 'r') && (t = 'T' || t = 't') && colon = ':' then
      rest.dropWhile isJsWs
    else s
  | _ => s

/-- `replace(/…\s*$/, '')`: remove one trailing ellipsis character together
with any whitespace after it. -/
def stripTrailingEllipsis (s : List Char) : List Char :=
  match s.reverse.dropWhile isJsWs with
  | c :: rest => if c = '…' then rest.reverse else s
  | [] => s

/-! ## src/utils/textUtils.ts -/

/-- The entity replacements of `decodeHtmlEntities`, in source order (the
final pair is the `\n → ' '` pass). -/
def htmlEntityPairs : List (String × String) :=
  [("&gt;", ">"), ("&lt;", "<"), ("&amp;", "&"), ("&quot;", "\""),
   ("&apos;", "\x27"), ("&#39;", "\x27"), ("&#x2F;", "/"), ("&#x27;", "\x27"),
   ("&#x2B;", "+"), ("&nbsp;", " "), ("&ndash;", "–"), ("&mdash;", "—"),
   ("&ldquo;", "\""), ("&rdquo;", "\""), ("&bull;", "•"), ("&hellip;", "…"),
   ("\n", " ")]

/-- `decodeHtmlEntities` from src/utils/textUtils.ts.  The browser-`document`
branch is unavailable on the native platform; this is the manual fallback
chain, which is the pure specification of the decoding. -/
def decodeHtmlEntities (s : String) : String :=
  if s = "" then ""
  else String.mk (htmlEntityPairs.foldl (fun acc p => replaceAll p.1.data p.2.data acc) s.data)

/-- `cleanupTweetContent` from src/utils/textUtils.ts. -/
def cleanupTweetContent (s : String) : String :=
  if s = "" then ""
  else
    let t1 := stripLeadingRt s.data
    let t2 :=
      match firstIdxOf "Quote [@".data t1 with
      | some i => trimBoth (t1.take i)
      | none => t1
    let t3 := stripAll httpUrlMatch t2
    let t4 := stripAll (hostUrlMatch "t.co/".data) t3
    let t5 := stripAll (hostUrlMatch "x.com/".data) t4
    let t6 := stripAll (hostUrlMatch "twitter.com/".data) t5
    let t7 := stripTrailingEllipsis t6
    let t8 := collapseWs t7
    String.mk (trimBoth t8)

/-! ## Data model (types/news.ts) -/

structure SymbolInfo where
  exchange : String
  symbol : String
deriving DecidableEq, Repr

structure Suggestion where
  coin : String
  found : List String
  symbols : List SymbolInfo
  supply : Option ℚ
deriving DecidableEq, Repr

structure QuotedUser where
  name : Option String
  screen_name : Option String
  icon : Option String
  text : Option String
  image : Option String
deriving DecidableEq, Repr

structure TwitterInfo where
  twitterId : Option String
  isReply : Option Bool
  isRetweet : Option Bool
  isQuote : Option Bool
  isSelfReply : Option Bool
  username : Option String
  name : Option String
  quotedUser : Option QuotedUser
deriving DecidableEq, Repr

structure NewsItem where
  _id : String
  title : String
  body : Option String
  source : String
  url : Option String
  time : Int
  suggestions : Option (List Suggestion)
  icon : Option String
  image : Option String
  info : Option TwitterInfo
  isHighlighted : Option Bool
  requireInteraction : Option Bool
  type : Option String
  coin : Option String
  matchedKeyword : Option String
  newsSource : Option String
deriving DecidableEq, Repr

structure FilterKeyword where
  id : String
  keyword : String
deriving DecidableEq, Repr

/-! ## JS truthiness helpers -/

/-- Truthiness of a JS string: non-empty. -/
def truthyS (s : String) : Bool := !(s == "")

/-- Truthiness of an optional JS string: present and non-empty. -/
def truthyOS (o : Option String) : Bool :=
  match o with
  | some s => truthyS s
  | none => false

/-- JS `o || d` producing a string. -/
def jsOrS (o : Option String) (d : String) : String :=
  match o with
  | some s => if s = "" then d else s
  | none => d

/-- JS `a || b` on two optional strings. -/
def jsOrOS (a b : Option String) : Option String :=
  if truthyOS a then a else b

/-! ## Keyword matching

`checkForKeywordMatch` (notificationService) and `findMatchedKeyword`
(src/services/apiService.ts) are the same loop: lower-case the title and body
once, then return the first keyword of the list whose verbatim text occurs in
either.  `checkForKeywordMatch` returns `null` on no match,
`findMatchedKeyword` returns `undefined`; both are `none` here. -/

/-- The shared scan loop over the keyword list. -/
def findKeywordIn (titleLower bodyLower : String) : List FilterKeyword → Option String
  | [] => none
  | f :: rest =>
    if strIncludes titleLower f.keyword || strIncludes bodyLower f.keyword then
      some f.keyword
    else findKeywordIn titleLower bodyLower rest

/-- `notificationService.checkForKeywordMatch`. -/
def checkForKeywordMatch (newsItem : NewsItem) (filterKeywords : List FilterKeyword) :
    Option String :=
  if filterKeywords.isEmpty then none
  else
    findKeywordIn (jsToLower newsItem.title) (jsToLower (newsItem.body.getD ""))
      filterKeywords

/-- `findMatchedKeyword` from src/services/apiService.ts (same algorithm). -/
def findMatchedKeyword (newsItem : NewsItem) (filterKeywords : List FilterKeyword) :
    Option String :=
  if filterKeywords.isEmpty then none
  else
    findKeywordIn (jsToLower newsItem.title) (jsToLower (newsItem.body.getD ""))
      filterKeywords

/-- Modelled from the spec words, for refinement comparison only: a fully
case-insensitive substring search, lowering both the event text and the
keyword, first match in list order. -/
def specCaseInsensitiveMatch (newsItem : NewsItem) (ks : List FilterKeyword) :
    Option String :=
  (ks.find? (fun f =>
    strIncludes (jsToLower newsItem.title) (jsToLower f.keyword) ||
    strIncludes (jsToLower (newsItem.body.getD "")) (jsToLower f.keyword))).map
      (fun f => f.keyword)

/-! ## Reconciled store (src/store/newsStore.ts, `addNews`) -/

/-- The slice of the zustand store state that `addNews` reads and writes. -/
structure NewsState where
  news : List NewsItem
  filterKeywords : List FilterKeyword
  showTwitterPosts : Bool
  disableApiRequests : Bool
deriving DecidableEq, Repr

/-- Lines 81-88 of newsStore.ts: fill in a generated `_id` when the incoming
one is falsy, and default `newsSource` to `'tree'`. -/
def processIncoming (n : NewsItem) (genId : String) : NewsItem :=
  let n1 := if truthyS n._id then n else { n with _id := genId }
  if truthyOS n1.newsSource then n1 else { n1 with newsSource := some "tree" }

/-- The Twitter/X-post classification of newsStore.ts lines 91-94 (and the
identical checks in apiService.ts). -/
def isTwitterOrXPost (n : NewsItem) : Bool :=
  n.source == "X" || n.source == "Twitter" ||
  ((match n.info with
    | some i => truthyOS i.twitterId
    | none => false) && strIncludes n.title "@")

/-- One disjunct of the duplicate check of newsStore.ts lines 102-109:
`old` is the stored item, `newsItem` the incoming one. -/
def isDupOf (newsItem old : NewsItem) : Bool :=
  old._id == newsItem._id ||
  (truthyOS old.url && truthyOS newsItem.url && old.url == newsItem.url) ||
  (truthyS old.title && truthyS newsItem.title && old.title == newsItem.title)

/-- The ordering used by `.sort((a, b) => b.time - a.time)`: descending by
timestamp.  JS `Array.prototype.sort` is stable (ES2019), as is
`List.insertionSort`, so the stable insertion sort is an exact model. -/
def byTimeDesc (a b : NewsItem) : Prop := b.time ≤ a.time

instance : DecidableRel byTimeDesc :=
  fun a b => inferInstanceAs (Decidable (b.time ≤ a.time))

instance : IsTotal NewsItem byTimeDesc := ⟨fun a b => le_total b.time a.time⟩

instance : IsTrans NewsItem byTimeDesc := ⟨fun _ _ _ hab hbc => le_trans hbc hab⟩

/-- Lines 117-121 of newsStore.ts: the highlight heuristic.  Note that with an
all-caps (or empty) title the first disjunct holds, and that the fourth
disjunct is `newMatchedKeyword !== null`, true even for a matched empty
keyword. -/
def highlightedCheck (n : NewsItem) (newMatched : Option String) : Bool :=
  jsToUpper n.title == n.title ||
  n.source == "Terminal" ||
  (n.suggestions.getD []).any (fun s => s.coin == "BTC" || s.coin == "ETH") ||
  newMatched.isSome

/-- Lines 123-130 of newsStore.ts: build the enhanced item.  `isHighlighted`
is the heuristic OR the incoming flag; `matchedKeyword` prefers the incoming
truthy value over the matcher's, and a falsy result is stored as `undefined`. -/
def enhanceItem (n : NewsItem) (newMatched : Option String) : NewsItem :=
  let mk := if truthyOS n.matchedKeyword then n.matchedKeyword else newMatched
  { n with
    isHighlighted := if highlightedCheck n newMatched then some true else n.isHighlighted,
    matchedKeyword := if truthyOS mk then mk else none }

/-- Line 133 of newsStore.ts: the notification guard. -/
def shouldNotify (n : NewsItem) (newMatched : Option String) : Bool :=
  truthyOS newMatched && (!truthyOS n.matchedKeyword || n.matchedKeyword != newMatched)

/-- `addNews` from src/store/newsStore.ts.  Returns the new state together
with the notification request passed to
`notificationService.scheduleNotification`, if any.  `genId` stands for the
freshly generated id of line 82. -/
def addNews (state : NewsState) (newsItem : NewsItem) (genId : String) :
    NewsState × Option (NewsItem × String) :=
  if state.disableApiRequests && newsItem.source == "api" then (state, none)
  else
    let item := processIncoming newsItem genId
    if !state.showTwitterPosts && isTwitterOrXPost item then (state, none)
    else if state.news.any (fun old => isDupOf item old) then (state, none)
    else
      let newMatched := checkForKeywordMatch item state.filterKeywords
      let enhanced := enhanceItem item newMatched
      let notif :=
        if shouldNotify item newMatched then newMatched.map (fun k => (enhanced, k))
        else none
      ({ state with
          news := (List.insertionSort byTimeDesc (enhanced :: state.news)).take 100 },
       notif)

/-! ## Format adapters (src/services/apiService.ts)

The adapters take `Option Raw…` inputs: `none` models the raw payloads that
fail the `!item || typeof item !== 'object'` validation (the only `throw` in
the `try` bodies), which the `catch` turns into the minimal placeholder item.
Raw fields that JS reads with truthiness checks are `Option`s; fields read with
`Boolean(...)` are modelled as the resulting `Bool`. -/

/-- Raw Tree-format payload (the fields `convertTreeFormat` reads). -/
structure RawTree where
  _id : Option String
  source : Option String
  title : Option String
  body : Option String
  url : Option String
  link : Option String
  time : Option Int
  suggestions : Option (List Suggestion)
  icon : Option String
  image : Option String
  info : Option TwitterInfo
  isHighlighted : Option Bool
  requireInteraction : Option Bool
  type : Option String
  coin : Option String
deriving DecidableEq, Repr

/-- Raw Phoenix-format payload (the fields `convertPhoenixFormat` reads).
`createdAtMs`/`receivedAtMs` model `new Date(item.createdAt).getTime()` and
its `receivedAt` twin, with `none` for an absent/falsy source field. -/
structure RawPhoenix where
  _id : Option String
  source : Option String
  sourceName : Option String
  twitterId : Option String
  tweetId : Option String
  username : Option String
  name : Option String
  title : Option String
  body : Option String
  url : Option String
  time : Option Int
  createdAtMs : Option Int
  receivedAtMs : Option Int
  suggestions : Option (List Suggestion)
  icon : Option String
  image : Option String
  isReply : Bool
  isRetweet : Bool
  isQuote : Bool
  isSelfReply : Bool
  quotedUser : Option QuotedUser
deriving DecidableEq, Repr

/-- JS `item.time || fallback` (0 is falsy). -/
def jsOrI (o : Option Int) (d : Int) : Int :=
  match o with
  | some t => if t = 0 then d else t
  | none => d

/-- The lazy regex `/(.*?)\s*\((.*?)\)/` of `convertPhoenixFormat`, lines
876-879.  A match exists iff the string has a `'('` with some `')'` after it;
then group 1 is everything before the first such `'('` minus the whitespace
run directly in front of it, and group 2 is everything between that `'('` and
the first following `')'`. -/
def matchNameHandle (s : List Char) : Option (List Char × List Char) :=
  match firstIdxOf ['('] s with
  | none => none
  | some p =>
    let tail := s.drop (p + 1)
    if tail.contains ')' then
      some (trimRight (s.take p), tail.takeWhile (fun c => c ≠ ')'))
    else none

/-- `convertTreeFormat` (src/services/apiService.ts lines 762-830).
`now` models `Date.now()`, `rand` the random id suffix. -/
def convertTreeFormat (raw : Option RawTree) (now : Int) (rand : String) : NewsItem :=
  match raw with
  | none =>
    -- the catch-branch placeholder of lines 822-828
    { _id := "error-tree-" ++ toString now, title := "Error processing news item",
      body := none, source := "Error", url := none, time := now, suggestions := none,
      icon := none, image := none, info := none, isHighlighted := none,
      requireInteraction := none, type := none, coin := none, matchedKeyword := none,
      newsSource := some "tree" }
  | some item =>
    let id := jsOrS item._id ("tree-" ++ toString now ++ "-" ++ rand)
    let isTw :=
      item.source == some "X" || item.source == some "Twitter" ||
      ((match item.info with
        | some i => truthyOS i.twitterId
        | none => false) &&
       (match item.title with
        | some t => strIncludes t "@"
        | none => false))
    let title0 := decodeHtmlEntities (jsOrS item.title "")
    let title1 := if isTw && truthyS title0 then cleanupTweetContent title0 else title0
    let body0 := decodeHtmlEntities (jsOrS item.body "")
    let info1 :=
      match item.info with
      | some i =>
        some { i with quotedUser :=
          match i.quotedUser with
          | some q =>
            some (if truthyOS q.text then
                    { q with text := some (decodeHtmlEntities (q.text.getD "")) }
                  else q)
          | none => none }
      | none => none
    { _id := id, title := title1, body := some body0,
      -- line 791 mutates item.source to 'X' first, so line 804 yields:
      source := if isTw then "X" else jsOrS item.source "News",
      url := jsOrOS item.url item.link,
      time := jsOrI item.time now,
      suggestions := some (item.suggestions.getD []),
      icon := item.icon, image := item.image, info := info1,
      isHighlighted := item.isHighlighted,
      requireInteraction := item.requireInteraction,
      type := item.type, coin := item.coin, matchedKeyword := none,
      newsSource := some "tree" }

/-- The quote marker `"&gt;&gt;QUOTE "` (including the trailing space). -/
def quoteMarker : String := "&gt;&gt;QUOTE "

/-- Lines 856-928 of `convertPhoenixFormat`: split the body of a Twitter post
at the quote marker.  Returns the title, the cleared-or-kept body, and the
extracted quoted user, mirroring the nested `if`s of the source. -/
def parsePhoenixBody (isTw : Bool) (title0 body0 : String) :
    String × String × Option QuotedUser :=
  if isTw && truthyS body0 then
    match strIndexOf body0 quoteMarker with
    | some qi =>
      let mainContent := jsTrim (String.mk (body0.data.take qi))
      let quoteContent := body0.data.drop (qi + quoteMarker.length)
      match firstIdxOf [')'] quoteContent with
      | some u =>
        -- `usernameEndIndex < quoteContent.length` always holds here
        let quotedUserInfo := String.mk (quoteContent.take (u + 1))
        let quotedContent := jsTrim (String.mk (quoteContent.drop (u + 1)))
        let qu :=
          match matchNameHandle quotedUserInfo.data with
          | some (g1, g2) =>
            { name := some (jsTrim (String.mk g1)),
              screen_name := some (strReplaceFirst (jsTrim (String.mk g2)) "@" ""),
              icon := none, text := some quotedContent, image := none : QuotedUser }
          | none =>
            -- fallback: the whole prefix is the name
            { name := some quotedUserInfo, screen_name := some "",
              icon := none, text := some quotedContent, image := none }
        (mainContent, "", some qu)
      | none => (body0, "", none)
    | none => (body0, "", none)
  else (title0, body0, none)

/-- `convertPhoenixFormat` (src/services/apiService.ts lines 832-1001). -/
def convertPhoenixFormat (raw : Option RawPhoenix) (now : Int) (rand : String) :
    NewsItem :=
  match raw with
  | none =>
    -- the catch-branch placeholder of lines 993-999
    { _id := "error-phoenix-" ++ toString now, title := "Error processing news item",
      body := none, source := "Error", url := none, time := now, suggestions := none,
      icon := none, image := none, info := none, isHighlighted := none,
      requireInteraction := none, type := none, coin := none, matchedKeyword := none,
      newsSource := some "phoenix" }
  | some item =>
    let id := jsOrS item._id ("phoenix-" ++ toString now ++ "-" ++ rand)
    let isTw :=
      item.source == some "X" || item.source == some "Twitter" ||
      (truthyOS item.twitterId && truthyOS item.username)
    let parsed := parsePhoenixBody isTw (jsOrS item.title "") (jsOrS item.body "")
    let title2 := decodeHtmlEntities parsed.1
    let body2 := decodeHtmlEntities parsed.2.1
    let title3 := if isTw then cleanupTweetContent title2 else title2
    let fallbackTs :=
      match item.createdAtMs with
      | some c => c
      | none =>
        match item.receivedAtMs with
        | some r => r
        | none => now
    let info1 : Option TwitterInfo :=
      if isTw then
        some
          { twitterId := some (jsOrS item.twitterId (jsOrS item.tweetId "")),
            isReply := some item.isReply, isRetweet := some item.isRetweet,
            isQuote := some item.isQuote, isSelfReply := some item.isSelfReply,
            username := some (jsOrS item.username ""),
            name := some (jsOrS item.name ""),
            quotedUser :=
              if item.isQuote then
                match parsed.2.2 with
                | some qu => some qu
                | none =>
                  match item.quotedUser with
                  | some q =>
                    some { name := some (jsOrS q.name ""),
                           screen_name := some (jsOrS q.screen_name ""),
                           icon := q.icon,
                           text := some (decodeHtmlEntities (jsOrS q.text "")),
                           image := q.image }
                  | none => none
              else none }
      else none
    { _id := id, title := title3, body := some body2,
      source := if isTw then "X" else jsOrS item.sourceName (jsOrS item.source "Unknown"),
      url := some (jsOrS item.url ""),
      time := jsOrI item.time fallbackTs,
      suggestions := some (item.suggestions.getD []),
      icon := item.icon, image := item.image, info := info1,
      isHighlighted := none, requireInteraction := none, type := none, coin := none,
      matchedKeyword := none, newsSource := some "phoenix" }

/-! ## Connection actor (src/services/apiService.ts, `WebSocketService`)

The state below is the subset of the actor's fields touched by
`handleClose`/`scheduleReconnect`, together with the two store flags those
methods write (`treeConnected`/`phoenixConnected` as `connected`, and the
store error banner).  A pending reconnect timer is modelled by the delay it
was armed with. -/

structure WsCloseEvent where
  code : Option Int
  reason : Option String
deriving DecidableEq, Repr

structure WsState where
  sourceType : String
  socket : Bool
  url : String
  isConnecting : Bool
  reconnectAttempts : Nat
  pendingReconnectDelay : Option ℚ
  isCleaned : Bool
  isHandlingErrorOrClose : Bool
  isCleanDisconnect : Bool
  connected : Bool
  storeError : Option String
  isLoading : Bool
deriving DecidableEq, Repr

/-- `maxReconnectAttempts` (apiService.ts line 414). -/
def maxReconnectAttempts : Nat := 10

/-- The close-code table of `handleClose`, lines 1062-1077. -/
def closeCodeReason (code : Option Int) : String :=
  match code with
  | some 1000 => "Normal closure"
  | some 1001 => "Server going down or client navigating away"
  | some 1006 => "Abnormal closure, connection lost"
  | some 1008 => "Policy violation"
  | some 1011 => "Server error"
  | some 1012 => "Server restarting"
  | some 1013 => "Try again later"
  | _ => "Unknown reason"

/-- The full close reason, including the optional `event.reason` suffix. -/
def closeReason (ev : Option WsCloseEvent) : String :=
  match ev with
  | none => "Unknown reason"
  | some e =>
    let base := closeCodeReason e.code
    match e.reason with
    | some r => if r = "" then base else base ++ ": " ++ r
    | none => base

/-- The backoff delay computed at line 1213:
`Math.min(1000 * Math.pow(1.5, attempts - 1), 60000)`, exact in `ℚ`
(every value taken here is a dyadic rational, exactly representable as a
JS double). -/
def reconnectDelay (attempts : Nat) : ℚ :=
  min (1000 * (3 / 2 : ℚ) ^ (attempts - 1)) 60000

/-- `scheduleReconnect` (lines 1203-1223): arm a timer only if none is pending
and a URL is configured; the attempt counter increments but is clamped at
`maxReconnectAttempts`. -/
def scheduleReconnect (s : WsState) : WsState :=
  if s.pendingReconnectDelay = none ∧ s.url ≠ "" then
    let a0 := s.reconnectAttempts + 1
    let a := if a0 > maxReconnectAttempts then maxReconnectAttempts else a0
    { s with reconnectAttempts := a, pendingReconnectDelay := some (reconnectDelay a) }
  else s

/-- `handleClose` (lines 1039-1108) as a state transformer.  The queued-retry
branch (a second close arriving while one is being handled) leaves the state
unchanged now; `isHandlingErrorOrClose` is set and reset inside the same
handler, so its net value is preserved. -/
def handleClose (s : WsState) (ev : Option WsCloseEvent) : WsState :=
  if s.isCleaned then s
  else if s.isHandlingErrorOrClose then s
  else
    let reason := closeReason ev
    let s1 :=
      if !s.isCleanDisconnect then
        { s with storeError := some ("[" ++ s.sourceType ++ "] Connection closed: " ++ reason) }
      else s
    let s2 := { s1 with connected := false, socket := false }
    let s3 :=
      if !s.isCleanDisconnect then scheduleReconnect { s2 with isConnecting := false }
      else s2
    { s3 with isCleanDisconnect := false, isLoading := false }

/-- One failed reconnection cycle: the pending timer fires (the timeout
callback nulls `reconnectTimeout` after starting `connect`), the connection
attempt fails, and the abnormal close reaches `handleClose`, which calls
`scheduleReconnect` again. -/
def connectionFailureStep (s : WsState) : WsState :=
  handleClose { s with pendingReconnectDelay := none }
    (some { code := some 1006, reason := none })

/-! ## Notification dispatcher (notificationService, `scheduleNotification`)

The dedup state: `recent` holds the `` `${id}-${keyword}` `` keys of
recently-dispatched notifications with the absolute time at which their
60-second removal timer fires; `skipped` is the matching stat counter;
`dispatched` records every call that reaches the platform notification sink
(`showWebNotification`/`showMobileNotification`). -/

structure NotifState where
  recent : List (String × Int)
  skipped : Nat
  dispatched : List (Int × String)
deriving DecidableEq, Repr

/-- `NOTIFICATION_DEDUPE_WINDOW` (60 000 ms). -/
def notificationDedupeWindow : Int := 60000

/-- The dedup key of line 244: `` `${newsItem._id || ''}-${matchedKeyword}` ``. -/
def notifKey (id keyword : String) : String :=
  (if truthyS id then id else "") ++ "-" ++ keyword

/-- Fire every expired removal timer: entries whose removal time has been
reached disappear from the dedup set. -/
def expireNotifs (t : Int) (s : NotifState) : NotifState :=
  { s with recent := s.recent.filter (fun e => t < e.2) }

/-- One `scheduleNotification` call at time `t`.  `permitted` abstracts the
initialization/permission gate of lines 224-241 (when false the call is
skipped and counted without touching the dedup set).  Lines 243-257: a key
already in the dedup set is skipped and counted; otherwise it is recorded
with a 60-second expiry and the notification is dispatched to the sink. -/
def notifStep (permitted : Bool) (s : NotifState) (t : Int) (id keyword : String) :
    NotifState :=
  if !permitted then { s with skipped := s.skipped + 1 }
  else
    let s1 := expireNotifs t s
    let key := notifKey id keyword
    if s1.recent.any (fun e => e.1 == key) then
      { s1 with skipped := s1.skipped + 1 }
    else
      { s1 with recent := s1.recent ++ [(key, t + notificationDedupeWindow)],
                dispatched := s1.dispatched ++ [(t, key)] }

/-- A sequence of `scheduleNotification` calls, each a `(time, id, keyword)`
triple. -/
def runNotifs (permitted : Bool) (s : NotifState) (reqs : List (Int × String × String)) :
    NotifState :=
  reqs.foldl (fun st r => notifStep permitted st r.1 r.2.1 r.2.2) s

/-- Number of sink dispatches carrying a given dedup key. -/
def dispatchCount (s : NotifState) (key : String) : Nat :=
  s.dispatched.countP (fun d => d.2 == key)

/-! ## Theorems -/

/-- C3 counterexample: on a malformed (non-object) payload both adapters
produce the placeholder title `"Error processing news item"`, not the
`"Error processing item"` stated by the claim. -/
theorem claim3_counterexample :
    (convertTreeFormat none 0 "r").title ≠ "Error processing item" ∧
    (convertPhoenixFormat none 0 "r").title ≠ "Error processing item" := by
  decide

/-- C3 (amended): each adapter is total by construction, and on malformed
input returns the minimal placeholder event with title
`"Error processing news item"`, the synthetic id `error-tree-`/`error-phoenix-`
followed by the current timestamp, and the current timestamp as its time. -/
theorem claim3_error_placeholder (now : Int) (rand : String) :
    convertTreeFormat none now rand =
      { _id := "error-tree-" ++ toString now, title := "Error processing news item",
        body := none, source := "Error", url := none, time := now, suggestions := none,
        icon := none, image := none, info := none, isHighlighted := none,
        requireInteraction := none, type := none, coin := none, matchedKeyword := none,
        newsSource := some "tree" } ∧
    convertPhoenixFormat none now rand =
      { _id := "error-phoenix-" ++ toString now, title := "Error processing news item",
        body := none, source := "Error", url := none, time := now, suggestions := none,
        icon := none, image := none, info := none, isHighlighted := none,
        requireInteraction := none, type := none, coin := none, matchedKeyword := none,
        newsSource := some "phoenix" } :=
  ⟨rfl, rfl⟩

/-- The Source-B payload of the C4 scenario. -/
def phoenixQuoteScenarioRaw : RawPhoenix :=
  { _id := some "p1", source := some "X", sourceName := none, twitterId := some "t1",
    tweetId := none, username := some "bob", name := some "Bob",
    title := none, body := some "hello &gt;&gt;QUOTE Alice (@alice) nice",
    url := none, time := some 1234, createdAtMs := none, receivedAtMs := none,
    suggestions := none, icon := none, image := none,
    isReply := false, isRetweet := false, isQuote := true, isSelfReply := false,
    quotedUser := none }

/-- C4: the scenario payload with body
`"hello &gt;&gt;QUOTE Alice (@alice) nice"` normalizes to title `"hello"`,
quoted author `Alice`/`alice`, quoted text `"nice"` and an empty body; and in
general the adapter splits the body at the quote marker, splits the quote
content at the first closing parenthesis, parses `Name (@handle)` with a
whole-prefix fallback, and uses the (trimmed) main content as the title while
clearing the body. -/
theorem claim4_quote_parsing :
    ((convertPhoenixFormat (some phoenixQuoteScenarioRaw) 99 "r").title = "hello" ∧
     (convertPhoenixFormat (some phoenixQuoteScenarioRaw) 99 "r").body = some "" ∧
     ((convertPhoenixFormat (some phoenixQuoteScenarioRaw) 99 "r").info.bind
        (fun i => i.quotedUser)) =
       some { name := some "Alice", screen_name := some "alice", icon := none,
              text := some "nice", image := none }) ∧
    (∀ (title0 body : String) (qi u : Nat),
      strIndexOf body quoteMarker = some qi →
      firstIdxOf [')'] (body.data.drop (qi + quoteMarker.length)) = some u →
      truthyS body = true →
      (parsePhoenixBody true title0 body).1 = jsTrim (String.mk (body.data.take qi)) ∧
      (parsePhoenixBody true title0 body).2.1 = "" ∧
      ∃ q, (parsePhoenixBody true title0 body).2.2 = some q ∧
        q.text = some (jsTrim (String.mk
          ((body.data.drop (qi + quoteMarker.length)).drop (u + 1)))) ∧
        (∀ g1 g2,
          matchNameHandle ((body.data.drop (qi + quoteMarker.length)).take (u + 1)) =
              some (g1, g2) →
          q.name = some (jsTrim (String.mk g1)) ∧
          q.screen_name = some (strReplaceFirst (jsTrim (String.mk g2)) "@" "")) ∧
        (matchNameHandle ((body.data.drop (qi + quoteMarker.length)).take (u + 1)) =
            none →
          q.name = some (String.mk
            ((body.data.drop (qi + quoteMarker.length)).take (u + 1))) ∧
          q.screen_name = some "")) := by
  constructor
  · refine ⟨by decide, by decide, by decide⟩
  · intro title0 body qi u h1 h2 h3
    rcases hm : matchNameHandle ((body.data.drop (qi + quoteMarker.length)).take (u + 1))
      with _ | ⟨g1, g2⟩
    · refine ⟨?_, ?_, ?_⟩ <;>
        simp [parsePhoenixBody, h1, h2, h3, hm]
    · refine ⟨?_, ?_, ?_⟩ <;>
        simp [parsePhoenixBody, h1, h2, h3, hm]

/-- C4 witness: the general clause applied to the scenario body. -/
theorem claim4_witness :
    (parsePhoenixBody true "" "hello &gt;&gt;QUOTE Alice (@alice) nice").1 =
      jsTrim (String.mk ("hello &gt;&gt;QUOTE Alice (@alice) nice".data.take 6)) :=
  (claim4_quote_parsing.2 "" "hello &gt;&gt;QUOTE Alice (@alice) nice" 6 13
    (by decide) (by decide) (by decide)).1

/-- C8: a clean close (code 1000, `isCleanDisconnect = true`) on an actor that
is connected and not cleaned up drops the connection status, surfaces no
error, schedules no reconnect (timer and attempt counter untouched), and
resets the clean-disconnect flag for the next cycle. -/
theorem claim8_clean_close (s : WsState) (rs : Option String)
    (h1 : s.isCleaned = false) (h2 : s.isHandlingErrorOrClose = false)
    (h3 : s.isCleanDisconnect = true) (_h4 : s.connected = true) :
    (handleClose s (some { code := some 1000, reason := rs })).connected = false ∧
    (handleClose s (some { code := some 1000, reason := rs })).storeError = s.storeError ∧
    (handleClose s (some { code := some 1000, reason := rs })).pendingReconnectDelay =
      s.pendingReconnectDelay ∧
    (handleClose s (some { code := some 1000, reason := rs })).reconnectAttempts =
      s.reconnectAttempts ∧
    (handleClose s (some { code := some 1000, reason := rs })).isCleanDisconnect = false := by
  simp [handleClose, h1, h2, h3]

/-- C8 witness. -/
theorem claim8_witness :
    (handleClose
      { sourceType := "tree", socket := true, url := "ws://h", isConnecting := false,
        reconnectAttempts := 0, pendingReconnectDelay := none, isCleaned := false,
        isHandlingErrorOrClose := false, isCleanDisconnect := true, connected := true,
        storeError := none, isLoading := false }
      (some { code := some 1000, reason := none })).connected = false :=
  (claim8_clean_close
    { sourceType := "tree", socket := true, url := "ws://h", isConnecting := false,
      reconnectAttempts := 0, pendingReconnectDelay := none, isCleaned := false,
      isHandlingErrorOrClose := false, isCleanDisconnect := true, connected := true,
      storeError := none, isLoading := false }
    none rfl rfl rfl rfl).1

/-- `find?` only looks at predicate values on the list's elements. -/
theorem listFindCongrMem {α : Type} {p q : α → Bool} :
    ∀ (l : List α), (∀ a ∈ l, p a = q a) → l.find? p = l.find? q
  | [], _ => rfl
  | a :: l, h => by
    have ha := h a (List.mem_cons_self a l)
    by_cases hp : p a = true
    · simp [List.find?, hp, ha ▸ hp]
    · simp only [Bool.not_eq_true] at hp
      simp [List.find?, hp, ha ▸ hp,
        listFindCongrMem l (fun b hb => h b (List.mem_cons_of_mem a hb))]

/-- The scan loop returns the first keyword of the list whose verbatim text
occurs in the lowered title or body. -/
theorem findKeywordIn_eq_find (tl bl : String) (ks : List FilterKeyword)
    (h : ∀ f ∈ ks, jsToLower f.keyword = f.keyword) :
    findKeywordIn tl bl ks =
      (ks.find? (fun f =>
        strIncludes tl (jsToLower f.keyword) ||
        strIncludes bl (jsToLower f.keyword))).map (fun f => f.keyword) := by
  induction ks with
  | nil => rfl
  | cons f rest ih =>
    have hf := h f (List.mem_cons_self f rest)
    have hrest : ∀ g ∈ rest, jsToLower g.keyword = g.keyword :=
      fun g hg => h g (List.mem_cons_of_mem f hg)
    by_cases hc : (strIncludes tl f.keyword || strIncludes bl f.keyword) = true
    · simp [findKeywordIn, List.find?, hf, hc]
    · simp only [Bool.not_eq_true] at hc
      simp [findKeywordIn, List.find?, hf, hc, ih hrest]

/-- C9 counterexample: the match is not case-insensitive in the keyword: with
keyword `"BTC"` and title `"btc news"` the code finds no match while a
case-insensitive substring search does. -/
theorem claim9_counterexample :
    checkForKeywordMatch
        { _id := "n1", title := "btc news", body := none, source := "News", url := none,
          time := 1, suggestions := none, icon := none, image := none, info := none,
          isHighlighted := none, requireInteraction := none, type := none, coin := none,
          matchedKeyword := none, newsSource := some "tree" }
        [{ id := "1", keyword := "BTC" }] = none ∧
    specCaseInsensitiveMatch
        { _id := "n1", title := "btc news", body := none, source := "News", url := none,
          time := 1, suggestions := none, icon := none, image := none, info := none,
          isHighlighted := none, requireInteraction := none, type := none, coin := none,
          matchedKeyword := none, newsSource := some "tree" }
        [{ id := "1", keyword := "BTC" }] = some "BTC" := by
  decide

/-- C9 (amended): the matcher lowercases the event's title and body and
searches for the verbatim keyword text, returning the first keyword of the
list that occurs (`none` on an empty list or no match); when every keyword is
lowercase — as `addFilterKeyword` guarantees for stored keywords — this
coincides with the fully case-insensitive search, and `findMatchedKeyword`
and `checkForKeywordMatch` are the same function. -/
theorem claim9_keyword_match (item : NewsItem) (ks : List FilterKeyword)
    (h : ∀ f ∈ ks, jsToLower f.keyword = f.keyword) :
    checkForKeywordMatch item ks = specCaseInsensitiveMatch item ks ∧
    findMatchedKeyword item ks = checkForKeywordMatch item ks ∧
    checkForKeywordMatch item ks =
      (ks.find? (fun f =>
        strIncludes (jsToLower item.title) f.keyword ||
        strIncludes (jsToLower (item.body.getD "")) f.keyword)).map
          (fun f => f.keyword) := by
  refine ⟨?_, rfl, ?_⟩
  · rcases ks with _ | ⟨f, rest⟩
    · rfl
    · simp only [checkForKeywordMatch, specCaseInsensitiveMatch, List.isEmpty_cons,
        Bool.false_eq_true, if_false]
      rw [findKeywordIn_eq_find _ _ _ h]
  · rcases ks with _ | ⟨f, rest⟩
    · rfl
    · simp only [checkForKeywordMatch, List.isEmpty_cons, Bool.false_eq_true, if_false]
      rw [findKeywordIn_eq_find _ _ _ h]
      congr 1
      apply listFindCongrMem
      intro g hg
      rw [h g hg]

/-- C9 witness: with the lowercase keyword `"btc"` the code and the
case-insensitive specification agree. -/
theorem claim9_witness :
    checkForKeywordMatch
        { _id := "n1", title := "Big BTC rally", body := none, source := "News",
          url := none, time := 1, suggestions := none, icon := none, image := none,
          info := none, isHighlighted := none, requireInteraction := none, type := none,
          coin := none, matchedKeyword := none, newsSource := some "tree" }
        [{ id := "1", keyword := "btc" }] =
      specCaseInsensitiveMatch
        { _id := "n1", title := "Big BTC rally", body := none, source := "News",
          url := none, time := 1, suggestions := none, icon := none, image := none,
          info := none, isHighlighted := none, requireInteraction := none, type := none,
          coin := none, matchedKeyword := none, newsSource := some "tree" }
        [{ id := "1", keyword := "btc" }] :=
  (claim9_keyword_match _ _ (by decide)).1

/-- C10: when `showTwitterPosts` is off, an item classified as a Twitter/X
post is silently dropped: `addNews` returns the state unchanged and schedules
no notification. -/
theorem claim10_twitter_filter (s : NewsState) (item : NewsItem) (genId : String)
    (h1 : s.showTwitterPosts = false)
    (h2 : isTwitterOrXPost (processIncoming item genId) = true) :
    addNews s item genId = (s, none) := by
  by_cases hapi : (s.disableApiRequests && (item.source == "api")) = true
  · simp [addNews, hapi]
  · simp only [Bool.not_eq_true] at hapi
    simp [addNews, hapi, h1, h2]

/-- C10 witness: a hidden X post is dropped. -/
theorem claim10_witness :
    addNews
      { news := [], filterKeywords := [], showTwitterPosts := false,
        disableApiRequests := false }
      { _id := "t1", title := "hi", body := none, source := "X", url := none, time := 1,
        suggestions := none, icon := none, image := none, info := none,
        isHighlighted := none, requireInteraction := none, type := none, coin := none,
        matchedKeyword := none, newsSource := some "tree" }
      "g" =
    ({ news := [], filterKeywords := [], showTwitterPosts := false,
       disableApiRequests := false }, none) :=
  claim10_twitter_filter _ _ _ rfl (by decide)

/-! ### Reconnect backoff (C5, C6) -/

/-- The backoff delay is monotone in the (clamped) attempt counter. -/
theorem reconnectDelay_mono {a b : Nat} (h : a ≤ b) :
    reconnectDelay a ≤ reconnectDelay b := by
  unfold reconnectDelay
  refine min_le_min ?_ le_rfl
  refine mul_le_mul_of_nonneg_left ?_ (by norm_num)
  exact pow_le_pow_right₀ (by norm_num) (Nat.sub_le_sub_right h 1)

/-- The backoff delay never exceeds the 60-second cap. -/
theorem reconnectDelay_le_cap (a : Nat) : reconnectDelay a ≤ 60000 :=
  min_le_right _ _

/-- The saturated delay: at the attempt ceiling the delay is
`1000 · 1.5⁹ = 38443.359375` ms, still below the cap. -/
theorem reconnectDelay_ten : reconnectDelay maxReconnectAttempts = 19683000 / 512 := by
  show min (1000 * (3 / 2 : ℚ) ^ (10 - 1 : Nat)) 60000 = 19683000 / 512
  norm_num

/-- Effect of one failed reconnection cycle on a live, non-clean actor. -/
theorem connectionFailureStep_eq (s : WsState)
    (h1 : s.isCleaned = false) (h2 : s.isHandlingErrorOrClose = false)
    (h3 : s.isCleanDisconnect = false) (h4 : s.url ≠ "") :
    connectionFailureStep s =
      { s with
        reconnectAttempts :=
          if s.reconnectAttempts + 1 > maxReconnectAttempts then maxReconnectAttempts
          else s.reconnectAttempts + 1,
        pendingReconnectDelay := some (reconnectDelay
          (if s.reconnectAttempts + 1 > maxReconnectAttempts then maxReconnectAttempts
           else s.reconnectAttempts + 1)),
        isConnecting := false, connected := false, socket := false,
        storeError := some
          ("[" ++ s.sourceType ++ "] Connection closed: Abnormal closure, connection lost"),
        isCleanDisconnect := false, isLoading := false } := by
  have hr : closeReason (some { code := some 1006, reason := none }) =
      "Abnormal closure, connection lost" := rfl
  simp [connectionFailureStep, handleClose, scheduleReconnect, h1, h2, h3, h4, hr,
    String.append_assoc]

/-- State after `k ≥ 1` consecutive failed reconnection cycles: the attempt
counter is `k` clamped at the ceiling, a timer with the matching backoff delay
is pending, and the liveness flags are stable. -/
theorem failSteps_formula (s : WsState)
    (h1 : s.isCleaned = false) (h2 : s.isHandlingErrorOrClose = false)
    (h3 : s.isCleanDisconnect = false) (h4 : s.url ≠ "")
    (h5 : s.reconnectAttempts = 0) :
    ∀ k : Nat, 1 ≤ k →
      (connectionFailureStep^[k] s).reconnectAttempts = min k maxReconnectAttempts ∧
      (connectionFailureStep^[k] s).pendingReconnectDelay =
        some (reconnectDelay (min k maxReconnectAttempts)) ∧
      (connectionFailureStep^[k] s).isCleaned = false ∧
      (connectionFailureStep^[k] s).isHandlingErrorOrClose = false ∧
      (connectionFailureStep^[k] s).isCleanDisconnect = false ∧
      (connectionFailureStep^[k] s).url = s.url := by
  intro k
  induction k with
  | zero => intro h; exact absurd h (by omega)
  | succ n ih =>
    intro _
    rcases Nat.eq_zero_or_pos n with hn | hn
    · subst hn
      rw [show (1 : Nat) = 0 + 1 from rfl, Function.iterate_succ_apply',
        Function.iterate_zero_apply, connectionFailureStep_eq s h1 h2 h3 h4]
      refine ⟨?_, ?_, h1, h2, rfl, rfl⟩ <;>
        simp [h5, maxReconnectAttempts]
    · have ihh := ih hn
      have hurl : (connectionFailureStep^[n] s).url ≠ "" := by
        rw [ihh.2.2.2.2.2]; exact h4
      rw [Function.iterate_succ_apply',
        connectionFailureStep_eq _ ihh.2.2.1 ihh.2.2.2.1 ihh.2.2.2.2.1 hurl]
      have hA :
          (if (connectionFailureStep^[n] s).reconnectAttempts + 1 > maxReconnectAttempts
           then maxReconnectAttempts
           else (connectionFailureStep^[n] s).reconnectAttempts + 1) =
            min (n + 1) maxReconnectAttempts := by
        rw [ihh.1]; unfold maxReconnectAttempts; split <;> omega
      refine ⟨?_, ?_, ihh.2.2.1, ihh.2.2.2.1, rfl, ihh.2.2.2.2.2⟩
      · simpa using hA
      · simpa using congrArg (fun a => some (reconnectDelay a)) hA

/-- C5: along any run of consecutive failed reconnection cycles of a live
actor, a new reconnect attempt is scheduled at every cycle as long as a URL is
configured, the pending delays are non-decreasing, never exceed the 60-second
cap, and are saturated (constant) from the attempt ceiling on. -/
theorem claim5_backoff_monotone (s : WsState)
    (h1 : s.isCleaned = false) (h2 : s.isHandlingErrorOrClose = false)
    (h3 : s.isCleanDisconnect = false) (h4 : s.url ≠ "")
    (h5 : s.reconnectAttempts = 0) :
    (∀ k : Nat, ∃ d : ℚ,
      (connectionFailureStep^[k + 1] s).pendingReconnectDelay = some d) ∧
    (∀ k : Nat,
      ((connectionFailureStep^[k + 1] s).pendingReconnectDelay.getD 0) ≤
      ((connectionFailureStep^[k + 2] s).pendingReconnectDelay.getD 0)) ∧
    (∀ k : Nat,
      ((connectionFailureStep^[k + 1] s).pendingReconnectDelay.getD 0) ≤ 60000) ∧
    (∀ k : Nat, maxReconnectAttempts ≤ k →
      (connectionFailureStep^[k] s).pendingReconnectDelay =
        (connectionFailureStep^[maxReconnectAttempts] s).pendingReconnectDelay) := by
  have hf := failSteps_formula s h1 h2 h3 h4 h5
  refine ⟨?_, ?_, ?_, ?_⟩
  · intro k
    exact ⟨_, (hf (k + 1) (by omega)).2.1⟩
  · intro k
    rw [(hf (k + 1) (by omega)).2.1, (hf (k + 2) (by omega)).2.1]
    exact reconnectDelay_mono (by omega)
  · intro k
    rw [(hf (k + 1) (by omega)).2.1]
    exact reconnectDelay_le_cap _
  · intro k hk
    rw [(hf k (by unfold maxReconnectAttempts at hk; omega)).2.1,
      (hf maxReconnectAttempts (by unfold maxReconnectAttempts; omega)).2.1]
    have : min k maxReconnectAttempts = min maxReconnectAttempts maxReconnectAttempts := by
      unfold maxReconnectAttempts at hk ⊢; omega
    rw [this]

/-- The initial Tree actor state used by the C5/C6 scenarios (attempt counter
zero, no pending timer, the default Tree WebSocket URL configured). -/
def treeInitState : WsState :=
  { sourceType := "tree", socket := false, url := "ws://35.76.194.63:4873",
    isConnecting := false, reconnectAttempts := 0, pendingReconnectDelay := none,
    isCleaned := false, isHandlingErrorOrClose := false, isCleanDisconnect := false,
    connected := false, storeError := none, isLoading := false }

/-- C5 witness: after the first failure of the freshly configured Tree actor a
reconnect is pending. -/
theorem claim5_witness :
    ∃ d : ℚ, (connectionFailureStep^[1] treeInitState).pendingReconnectDelay = some d :=
  (claim5_backoff_monotone treeInitState rfl rfl rfl (by decide) rfl).1 0

/-- C6 counterexample: after 12 consecutive failures the pending delay is
`1000 · 1.5⁹ = 38443.359375` ms (the counter is clamped at 10), which is not
the claimed 60000 ms plateau — the cap is never reached. -/
theorem claim6_counterexample :
    (connectionFailureStep^[12] treeInitState).pendingReconnectDelay =
      some (19683000 / 512) ∧
    (19683000 / 512 : ℚ) ≠ 60000 := by
  constructor
  · rw [(failSteps_formula treeInitState rfl rfl rfl (by decide) rfl 12 (by omega)).2.1]
    have : min 12 maxReconnectAttempts = maxReconnectAttempts := by
      unfold maxReconnectAttempts; omega
    rw [this, reconnectDelay_ten]
  · norm_num

/-- C6 (amended): 12 consecutive reconnect failures with base delay 1000 ms,
factor 1.5 and cap 60000 ms produce delays that plateau at
`1000 · 1.5⁹ = 38443.359375` ms from attempt 10 (the attempt-counter ceiling)
onward, never exceeding 60000 ms. -/
theorem claim6_backoff_plateau :
    (∀ k : Nat, 10 ≤ k → k ≤ 12 →
      (connectionFailureStep^[k] treeInitState).pendingReconnectDelay =
        some (19683000 / 512)) ∧
    (∀ k : Nat, 1 ≤ k → k ≤ 12 →
      ((connectionFailureStep^[k] treeInitState).pendingReconnectDelay.getD 0) ≤ 60000) := by
  have hf := failSteps_formula treeInitState rfl rfl rfl (by decide) rfl
  constructor
  · intro k hk _
    rw [(hf k (by omega)).2.1]
    have : min k maxReconnectAttempts = maxReconnectAttempts := by
      unfold maxReconnectAttempts; omega
    rw [this, reconnectDelay_ten]
  · intro k hk _
    rw [(hf k hk).2.1]
    exact reconnectDelay_le_cap _

/-- C6 witness: the plateau value at attempt 11. -/
theorem claim6_witness :
    (connectionFailureStep^[11] treeInitState).pendingReconnectDelay =
      some (19683000 / 512) :=
  claim6_backoff_plateau.1 11 (by omega) (by omega)

/-! ### Notification dedup (C7) -/

/-- A permitted `scheduleNotification` call, unfolded to its two dedup
branches. -/
theorem notifStep_true_eq (s : NotifState) (t : Int) (id kw : String) :
    notifStep true s t id kw =
      (if (expireNotifs t s).recent.any (fun e => e.1 == notifKey id kw) then
        { expireNotifs t s with skipped := (expireNotifs t s).skipped + 1 }
      else
        { expireNotifs t s with
          recent := (expireNotifs t s).recent ++
            [(notifKey id kw, t + notificationDedupeWindow)],
          dispatched := (expireNotifs t s).dispatched ++ [(t, notifKey id kw)] }) :=
  rfl

/-- The skip branch: the key is already in the dedup set. -/
theorem notifStep_skip_eq (s : NotifState) (t : Int) (id kw : String)
    (h : ((expireNotifs t s).recent.any (fun e => e.1 == notifKey id kw)) = true) :
    notifStep true s t id kw =
      { expireNotifs t s with skipped := (expireNotifs t s).skipped + 1 } := by
  rw [notifStep_true_eq, if_pos h]

/-- The send branch: the key is fresh. -/
theorem notifStep_send_eq (s : NotifState) (t : Int) (id kw : String)
    (h : ((expireNotifs t s).recent.any (fun e => e.1 == notifKey id kw)) = false) :
    notifStep true s t id kw =
      { expireNotifs t s with
        recent := (expireNotifs t s).recent ++
          [(notifKey id kw, t + notificationDedupeWindow)],
        dispatched := (expireNotifs t s).dispatched ++ [(t, notifKey id kw)] } := by
  rw [notifStep_true_eq, if_neg (by simp [h])]

/-- A `scheduleNotification` call for a different key neither removes a live
dedup entry (one whose removal timer has not yet fired) nor dispatches
anything under the entry's key. -/
theorem notifStep_other_key (s : NotifState) (t : Int) (id kw key : String) (ex : Int)
    (hk : notifKey id kw ≠ key) (hmem : (key, ex) ∈ s.recent) (ht : t < ex) :
    (key, ex) ∈ (notifStep true s t id kw).recent ∧
    dispatchCount (notifStep true s t id kw) key = dispatchCount s key := by
  have hmem1 : (key, ex) ∈ (expireNotifs t s).recent := by
    simp only [expireNotifs, List.mem_filter]
    exact ⟨hmem, by simpa using ht⟩
  by_cases hdup :
      ((expireNotifs t s).recent.any (fun e => e.1 == notifKey id kw)) = true
  · rw [notifStep_skip_eq s t id kw hdup]
    exact ⟨hmem1, rfl⟩
  · simp only [Bool.not_eq_true] at hdup
    rw [notifStep_send_eq s t id kw hdup]
    refine ⟨List.mem_append_left _ hmem1, ?_⟩
    have hne : ((t, notifKey id kw).2 == key) = false := by simpa using hk
    show List.countP _ ((expireNotifs t s).dispatched ++ [(t, notifKey id kw)]) =
      dispatchCount s key
    rw [List.countP_append]
    simp [List.countP_cons, hne, dispatchCount, expireNotifs]

/-- Running any sequence of other-key calls, each before the entry's removal
time, preserves the entry and its dispatch count. -/
theorem runNotifs_other_keys (key : String) (ex : Int) :
    ∀ (mids : List (Int × String × String)) (s : NotifState),
      (key, ex) ∈ s.recent →
      (∀ m ∈ mids, notifKey m.2.1 m.2.2 ≠ key) →
      (∀ m ∈ mids, m.1 < ex) →
      (key, ex) ∈ (runNotifs true s mids).recent ∧
      dispatchCount (runNotifs true s mids) key = dispatchCount s key
  | [], s, hmem, _, _ => ⟨hmem, rfl⟩
  | m :: rest, s, hmem, hkeys, htimes => by
    have hstep := notifStep_other_key s m.1 m.2.1 m.2.2 key ex
      (hkeys m (List.mem_cons_self m rest)) hmem (htimes m (List.mem_cons_self m rest))
    have hrest := runNotifs_other_keys key ex rest (notifStep true s m.1 m.2.1 m.2.2)
      hstep.1 (fun x hx => hkeys x (List.mem_cons_of_mem m hx))
      (fun x hx => htimes x (List.mem_cons_of_mem m hx))
    exact ⟨hrest.1, hrest.2.trans hstep.2⟩

/-- C7: a notification request for a fresh (id, keyword) pair is dispatched to
the sink exactly once; any repeat of the same pair issued within the
60-second window — regardless of interleaved requests for other keys — is
silently skipped: it adds one to the skipped counter and sends nothing. -/
theorem claim7_notification_dedup (s0 : NotifState) (t1 t2 : Int) (id kw : String)
    (mids : List (Int × String × String))
    (hfresh : ∀ e ∈ s0.recent, e.1 ≠ notifKey id kw)
    (hkeys : ∀ m ∈ mids, notifKey m.2.1 m.2.2 ≠ notifKey id kw)
    (htimes : ∀ m ∈ mids, m.1 < t1 + notificationDedupeWindow)
    (ht2 : t2 < t1 + notificationDedupeWindow) :
    dispatchCount
        (notifStep true (runNotifs true (notifStep true s0 t1 id kw) mids) t2 id kw)
        (notifKey id kw) =
      dispatchCount s0 (notifKey id kw) + 1 ∧
    (notifStep true (runNotifs true (notifStep true s0 t1 id kw) mids) t2 id kw).dispatched =
      (runNotifs true (notifStep true s0 t1 id kw) mids).dispatched ∧
    (notifStep true (runNotifs true (notifStep true s0 t1 id kw) mids) t2 id kw).skipped =
      (runNotifs true (notifStep true s0 t1 id kw) mids).skipped + 1 := by
  have hnodup :
      ((expireNotifs t1 s0).recent.any (fun e => e.1 == notifKey id kw)) = false := by
    rw [List.any_eq_false]
    intro e he
    have : e ∈ s0.recent := (List.mem_filter.mp he).1
    simpa using hfresh e this
  have hs1 := notifStep_send_eq s0 t1 id kw hnodup
  have hmem1 : (notifKey id kw, t1 + notificationDedupeWindow) ∈
      (notifStep true s0 t1 id kw).recent := by
    rw [hs1]
    exact List.mem_append_right _ (List.mem_singleton.mpr rfl)
  have hcount1 : dispatchCount (notifStep true s0 t1 id kw) (notifKey id kw) =
      dispatchCount s0 (notifKey id kw) + 1 := by
    rw [hs1]
    show List.countP _ ((expireNotifs t1 s0).dispatched ++ [(t1, notifKey id kw)]) =
      dispatchCount s0 (notifKey id kw) + 1
    rw [List.countP_append]
    simp [List.countP_cons, dispatchCount, expireNotifs]
  have hrun := runNotifs_other_keys (notifKey id kw) (t1 + notificationDedupeWindow)
    mids (notifStep true s0 t1 id kw) hmem1 hkeys htimes
  have hmem2 : (notifKey id kw, t1 + notificationDedupeWindow) ∈
      (expireNotifs t2 (runNotifs true (notifStep true s0 t1 id kw) mids)).recent := by
    simp only [expireNotifs, List.mem_filter]
    exact ⟨hrun.1, by simpa using ht2⟩
  have hdup2 :
      ((expireNotifs t2 (runNotifs true (notifStep true s0 t1 id kw) mids)).recent.any
        (fun e => e.1 == notifKey id kw)) = true := by
    rw [List.any_eq_true]
    exact ⟨(notifKey id kw, t1 + notificationDedupeWindow), hmem2, by simp⟩
  have hstep2 := notifStep_skip_eq (runNotifs true (notifStep true s0 t1 id kw) mids)
    t2 id kw hdup2
  refine ⟨?_, ?_, ?_⟩
  · rw [hstep2]
    show dispatchCount (runNotifs true (notifStep true s0 t1 id kw) mids) (notifKey id kw) =
      dispatchCount s0 (notifKey id kw) + 1
    rw [hrun.2, hcount1]
  · rw [hstep2]; rfl
  · rw [hstep2]; rfl

/-- C7 witness: two back-to-back requests for the same pair, one second
apart. -/
theorem claim7_witness :
    dispatchCount
        (notifStep true (runNotifs true
          (notifStep true { recent := [], skipped := 0, dispatched := [] } 0 "x" "btc")
          []) 1 "x" "btc")
        (notifKey "x" "btc") =
      dispatchCount { recent := [], skipped := 0, dispatched := [] } (notifKey "x" "btc") + 1 :=
  (claim7_notification_dedup { recent := [], skipped := 0, dispatched := [] } 0 1 "x" "btc"
    [] (by simp) (by simp) (by simp) (by decide)).1

/-! ### Store dedup invariant and insert shape (C1, C2) -/

/-- The store's dedup invariant: no entry is a duplicate (by id, non-empty
url, or non-empty title) of any other. -/
def DedupInv (l : List NewsItem) : Prop :=
  l.Pairwise (fun a b => isDupOf a b = false)

/-- `==` is symmetric for lawful instances. -/
theorem beqSymm {α : Type} [BEq α] [LawfulBEq α] (a b : α) : (a == b) = (b == a) := by
  by_cases h : a = b
  · subst h; rfl
  · have hab : (a == b) = false := beq_eq_false_iff_ne.mpr h
    have hba : (b == a) = false := beq_eq_false_iff_ne.mpr (Ne.symm h)
    rw [hab, hba]

/-- Duplicate detection is symmetric. -/
theorem isDupOf_comm (a b : NewsItem) : isDupOf a b = isDupOf b a := by
  simp only [isDupOf]
  rw [beqSymm b._id a._id, beqSymm b.url a.url, beqSymm b.title a.title,
    Bool.and_comm (truthyOS b.url) (truthyOS a.url),
    Bool.and_comm (truthyS b.title) (truthyS a.title)]

/-- Enhancement only touches `isHighlighted`/`matchedKeyword`, so it does not
change duplicate detection. -/
theorem isDupOf_enhance (n : NewsItem) (m : Option String) (o : NewsItem) :
    isDupOf (enhanceItem n m) o = isDupOf n o := rfl

/-- When none of the three guards fire, `addNews` inserts the enhanced item,
re-sorts descending by time and truncates to 100, and reports the
notification decision. -/
theorem addNews_insert_eq (s : NewsState) (item : NewsItem) (genId : String)
    (g1 : (s.disableApiRequests && (item.source == "api")) = false)
    (g2 : (!s.showTwitterPosts && isTwitterOrXPost (processIncoming item genId)) = false)
    (g3 : (s.news.any fun old => isDupOf (processIncoming item genId) old) = false) :
    addNews s item genId =
      ({ s with news :=
          (List.insertionSort byTimeDesc
            (enhanceItem (processIncoming item genId)
              (checkForKeywordMatch (processIncoming item genId) s.filterKeywords) ::
              s.news)).take 100 },
       if shouldNotify (processIncoming item genId)
           (checkForKeywordMatch (processIncoming item genId) s.filterKeywords) then
         (checkForKeywordMatch (processIncoming item genId) s.filterKeywords).map
           (fun k =>
             (enhanceItem (processIncoming item genId)
               (checkForKeywordMatch (processIncoming item genId) s.filterKeywords), k))
       else none) := by
  simp only [addNews, g1, g2, g3, Bool.false_eq_true, if_false]

/-- C1: duplicate suppression and the dedup invariant.  (1) A single insert
preserves the invariant; (2) so does any sequence of inserts; (3) whenever the
(id-normalized) incoming item duplicates a stored item by id, non-empty url or
non-empty title, `addNews` returns the state unchanged and schedules no
notification. -/
theorem claim1_dedup_invariant :
    (∀ (s : NewsState) (item : NewsItem) (genId : String),
      DedupInv s.news → DedupInv ((addNews s item genId).1.news)) ∧
    (∀ (s0 : NewsState) (inserts : List (NewsItem × String)),
      DedupInv s0.news →
      DedupInv ((inserts.foldl (fun st p => (addNews st p.1 p.2).1) s0).news)) ∧
    (∀ (s : NewsState) (item : NewsItem) (genId : String),
      (∃ old ∈ s.news, isDupOf (processIncoming item genId) old = true) →
      addNews s item genId = (s, none)) := by
  have hstep : ∀ (s : NewsState) (item : NewsItem) (genId : String),
      DedupInv s.news → DedupInv ((addNews s item genId).1.news) := by
    intro s item genId hinv
    by_cases g1 : (s.disableApiRequests && (item.source == "api")) = true
    · simpa [addNews, g1] using hinv
    · have g1f : (s.disableApiRequests && (item.source == "api")) = false := by
        simpa using g1
      by_cases g2 :
          (!s.showTwitterPosts && isTwitterOrXPost (processIncoming item genId)) = true
      · simpa [addNews, g1f, g2] using hinv
      · have g2f :
            (!s.showTwitterPosts && isTwitterOrXPost (processIncoming item genId)) = false := by
          simpa using g2
        by_cases g3 :
            (s.news.any fun old => isDupOf (processIncoming item genId) old) = true
        · simpa [addNews, g1f, g2f, g3] using hinv
        · have g3f :
              (s.news.any fun old => isDupOf (processIncoming item genId) old) = false := by
            simpa using g3
          rw [addNews_insert_eq s item genId g1f g2f g3f]
          have hall : ∀ old ∈ s.news,
              isDupOf (processIncoming item genId) old = false := by
            intro old hold
            rw [List.any_eq_false] at g3f
            simpa using g3f old hold
          have hcons : DedupInv
              (enhanceItem (processIncoming item genId)
                (checkForKeywordMatch (processIncoming item genId) s.filterKeywords) ::
                s.news) := by
            rw [DedupInv, List.pairwise_cons]
            refine ⟨?_, hinv⟩
            intro old hold
            rw [isDupOf_enhance]
            exact hall old hold
          have hsym : ∀ {x y : NewsItem},
              isDupOf x y = false → isDupOf y x = false := by
            intro x y h
            rw [isDupOf_comm]; exact h
          have hsorted := (List.Perm.pairwise_iff hsym
            (List.perm_insertionSort byTimeDesc _)).mpr hcons
          exact List.Pairwise.sublist (List.take_sublist 100 _) hsorted
  refine ⟨hstep, ?_, ?_⟩
  · intro s0 inserts
    induction inserts generalizing s0 with
    | nil => intro h; exact h
    | cons p rest ih =>
      intro h
      exact ih _ (hstep s0 p.1 p.2 h)
  · rintro s item genId ⟨old, hold, hdup⟩
    by_cases g1 : (s.disableApiRequests && (item.source == "api")) = true
    · simp [addNews, g1]
    · have g1f : (s.disableApiRequests && (item.source == "api")) = false := by
        simpa using g1
      by_cases g2 :
          (!s.showTwitterPosts && isTwitterOrXPost (processIncoming item genId)) = true
      · simp [addNews, g1f, g2]
      · have g2f :
            (!s.showTwitterPosts && isTwitterOrXPost (processIncoming item genId)) = false := by
          simpa using g2
        have g3 : (s.news.any fun old => isDupOf (processIncoming item genId) old) = true :=
          List.any_eq_true.mpr ⟨old, hold, hdup⟩
        simp [addNews, g1f, g2f, g3]

/-- First stored item of the C1 witness scenario. -/
def c1ItemA : NewsItem :=
  { _id := "x", title := "T1", body := none, source := "News", url := some "http://u",
    time := 5, suggestions := none, icon := none, image := none, info := none,
    isHighlighted := none, requireInteraction := none, type := none, coin := none,
    matchedKeyword := none, newsSource := some "tree" }

/-- Second item of the C1 witness scenario: different id, same url. -/
def c1ItemB : NewsItem :=
  { _id := "y", title := "T2", body := none, source := "News", url := some "http://u",
    time := 6, suggestions := none, icon := none, image := none, info := none,
    isHighlighted := none, requireInteraction := none, type := none, coin := none,
    matchedKeyword := none, newsSource := some "tree" }

/-- The C1 witness store state. -/
def c1State : NewsState :=
  { news := [c1ItemA], filterKeywords := [], showTwitterPosts := true,
    disableApiRequests := false }

/-- C1 witness: inserting an item with a fresh id but the url of a stored item
leaves the store unchanged (size 1), notifies nothing and keeps the
invariant. -/
theorem claim1_witness :
    addNews c1State c1ItemB "g" = (c1State, none) ∧
    DedupInv ((addNews c1State c1ItemB "g").1.news) :=
  ⟨claim1_dedup_invariant.2.2 c1State c1ItemB "g"
    ⟨c1ItemA, List.mem_singleton.mpr rfl, by decide⟩,
   claim1_dedup_invariant.1 c1State c1ItemB "g" (by simp [DedupInv, c1State])⟩

/-- The C2 counterexample pre-state: empty store, no keywords. -/
def c2State : NewsState :=
  { news := [], filterKeywords := [], showTwitterPosts := true,
    disableApiRequests := false }

/-- The C2 counterexample item: no highlight heuristic applies, but the item
arrives already flagged `isHighlighted`. -/
def c2Item : NewsItem :=
  { _id := "a", title := "hello", body := none, source := "News", url := none,
    time := 1, suggestions := none, icon := none, image := none, info := none,
    isHighlighted := some true, requireInteraction := none, type := none, coin := none,
    matchedKeyword := none, newsSource := some "tree" }

/-- C2 counterexample: the stored item keeps its incoming highlight flag even
though the claim's four-way formula (all-caps title, priority source, BTC/ETH
tag, keyword match) evaluates to false — the claim's description of the
enhanced event does not match the code, which ORs in the incoming flag. -/
theorem claim2_counterexample :
    ((addNews c2State c2Item "g").1.news.map (fun n => n.isHighlighted)) = [some true] ∧
    highlightedCheck (processIncoming c2Item "g")
        (checkForKeywordMatch (processIncoming c2Item "g") c2State.filterKeywords) =
      false := by
  decide

/-- C2 (amended): on a non-duplicate, non-filtered insert the post-state list
is the enhanced item prepended, stably sorted descending by timestamp and
truncated to 100; hence it is sorted descending, never exceeds 100 entries,
and the truncation drops only oldest-timestamp entries.  The enhanced item's
highlight is the four-way heuristic OR the incoming flag, and its
matched keyword is the matcher's result when the item carries none. -/
theorem claim2_insert_shape (s : NewsState) (item : NewsItem) (genId : String)
    (g1 : (s.disableApiRequests && (item.source == "api")) = false)
    (g2 : (!s.showTwitterPosts && isTwitterOrXPost (processIncoming item genId)) = false)
    (g3 : (s.news.any fun old => isDupOf (processIncoming item genId) old) = false) :
    (addNews s item genId).1.news =
      (List.insertionSort byTimeDesc
        (enhanceItem (processIncoming item genId)
          (checkForKeywordMatch (processIncoming item genId) s.filterKeywords) ::
          s.news)).take 100 ∧
    List.Sorted byTimeDesc (addNews s item genId).1.news ∧
    (addNews s item genId).1.news.length ≤ 100 ∧
    (∀ x ∈ (List.insertionSort byTimeDesc
        (enhanceItem (processIncoming item genId)
          (checkForKeywordMatch (processIncoming item genId) s.filterKeywords) ::
          s.news)).drop 100,
     ∀ y ∈ (List.insertionSort byTimeDesc
        (enhanceItem (processIncoming item genId)
          (checkForKeywordMatch (processIncoming item genId) s.filterKeywords) ::
          s.news)).take 100,
     x.time ≤ y.time) ∧
    ((enhanceItem (processIncoming item genId)
        (checkForKeywordMatch (processIncoming item genId) s.filterKeywords)).isHighlighted =
        some true ↔
      (highlightedCheck (processIncoming item genId)
          (checkForKeywordMatch (processIncoming item genId) s.filterKeywords) = true ∨
        (processIncoming item genId).isHighlighted = some true)) ∧
    (truthyOS (processIncoming item genId).matchedKeyword = false →
      (enhanceItem (processIncoming item genId)
        (checkForKeywordMatch (processIncoming item genId) s.filterKeywords)).matchedKeyword =
        (if truthyOS (checkForKeywordMatch (processIncoming item genId) s.filterKeywords)
         then checkForKeywordMatch (processIncoming item genId) s.filterKeywords
         else none)) := by
  have hA := addNews_insert_eq s item genId g1 g2 g3
  have hnews : (addNews s item genId).1.news =
      (List.insertionSort byTimeDesc
        (enhanceItem (processIncoming item genId)
          (checkForKeywordMatch (processIncoming item genId) s.filterKeywords) ::
          s.news)).take 100 := by
    rw [hA]
  have hsorted := List.sorted_insertionSort byTimeDesc
    (enhanceItem (processIncoming item genId)
      (checkForKeywordMatch (processIncoming item genId) s.filterKeywords) :: s.news)
  refine ⟨hnews, ?_, ?_, ?_, ?_, ?_⟩
  · rw [hnews]
    exact List.Pairwise.sublist (List.take_sublist 100 _) hsorted
  · rw [hnews, List.length_take]
    exact min_le_left _ _
  · have hsplit := hsorted
    rw [← List.take_append_drop 100
      (List.insertionSort byTimeDesc
        (enhanceItem (processIncoming item genId)
          (checkForKeywordMatch (processIncoming item genId) s.filterKeywords) ::
          s.news))] at hsplit
    have hcross := (List.pairwise_append.mp hsplit).2.2
    intro x hx y hy
    exact hcross y hy x hx
  · by_cases hc : highlightedCheck (processIncoming item genId)
        (checkForKeywordMatch (processIncoming item genId) s.filterKeywords) = true
    · simp [enhanceItem, hc]
    · have hcf : highlightedCheck (processIncoming item genId)
          (checkForKeywordMatch (processIncoming item genId) s.filterKeywords) = false := by
        simpa using hc
      simp [enhanceItem, hcf]
  · intro h
    simp [enhanceItem, h]

/-- C2 witness: the insert shape at a concrete non-duplicate insert. -/
theorem claim2_witness :
    (addNews c2State c2Item "g").1.news =
      (List.insertionSort byTimeDesc
        (enhanceItem (processIncoming c2Item "g")
          (checkForKeywordMatch (processIncoming c2Item "g") c2State.filterKeywords) ::
          c2State.news)).take 100 :=
  (claim2_insert_shape c2State c2Item "g" (by decide) (by decide) (by decide)).1

end NotMyApp
